import Mathlib

/-!
A verification development for the recursive API-workflow engine in `app.py`
of the `Portefollio_jay` repository.

Modelling conventions:
* Decoded JSON payloads (`RawResponse`) are modelled by the inductive `Raw`:
  mappings keep their Python key-insertion/iteration order as an association
  list, sequences are lists, and numeric scalars are exact rationals `ℚ`.
* Python's `isinstance(obj, (int, float))` is true for `bool` values because
  `bool` is a subclass of `int`; the embedding of `find_numbers` therefore
  treats a boolean leaf as its numeric value (`True = 1`, `False = 0`).
* The global `dashboard_data` list and the side effects of the engine are
  made explicit: each function returns the records it appends together with
  a trace of the external calls it performs (fetch, email, slack, sheet,
  selector).
* The external data source is an oracle `src : String → Option Raw`:
  `none` models a `requests.exceptions.RequestException` (timeout, HTTP
  error, connection error), `some data` a successful fetch whose decoded
  body is `data`.
-/

/-- A decoded data-source payload (`RawResponse` in the spec): scalars,
ordered sequences, and string-keyed mappings in key-iteration order. -/
inductive Raw where
  | num (q : ℚ)
  | str (s : String)
  | boolean (b : Bool)
  | null
  | arr (items : List Raw)
  | obj (fields : List (String × Raw))

/-- A scalar leaf of a `Raw` tree, used to state extraction claims. -/
inductive Leaf where
  | num (q : ℚ)
  | str (s : String)
  | boolean (b : Bool)
  | null
deriving DecidableEq

mutual

/-- Embedding of `WorkflowService.find_numbers` (app.py lines 112-122).
The Python code tests `isinstance(obj, dict)`, then `isinstance(obj, list)`,
then `isinstance(obj, (int, float))`; a `bool` reaches the third test and
passes it (Python `bool` is a subclass of `int`), contributing its numeric
value.  Strings and `None` fall through and contribute nothing. -/
def find_numbers : Raw → List ℚ
  | .obj fields => find_numbersFields fields
  | .arr items => find_numbersList items
  | .num q => [q]
  | .boolean b => [if b then 1 else 0]
  | .str _ => []
  | .null => []

/-- `find_numbers` extended over the elements of a sequence, in order. -/
def find_numbersList : List Raw → List ℚ
  | [] => []
  | x :: xs => find_numbers x ++ find_numbersList xs

/-- `find_numbers` extended over the values of a mapping, in key order. -/
def find_numbersFields : List (String × Raw) → List ℚ
  | [] => []
  | (_, v) :: fs => find_numbers v ++ find_numbersFields fs

end

mutual

/-- The scalar leaves of a `Raw` tree in traversal order (mapping values in
key-iteration order, sequence elements in order). -/
def leaves : Raw → List Leaf
  | .obj fields => leavesFields fields
  | .arr items => leavesList items
  | .num q => [.num q]
  | .boolean b => [.boolean b]
  | .str s => [.str s]
  | .null => [.null]

/-- `leaves` extended over the elements of a sequence, in order. -/
def leavesList : List Raw → List Leaf
  | [] => []
  | x :: xs => leaves x ++ leavesList xs

/-- `leaves` extended over the values of a mapping, in key order. -/
def leavesFields : List (String × Raw) → List Leaf
  | [] => []
  | (_, v) :: fs => leaves v ++ leavesFields fs

end

/-- The spec's reading of a numeric leaf: a number, booleans excluded. -/
def leafNumber : Leaf → Option ℚ
  | .num q => some q
  | _ => none

/-- Extractor following the spec's words: exactly the numeric leaves in
traversal order, booleans never included. -/
def specExtract (r : Raw) : List ℚ :=
  (leaves r).filterMap leafNumber

/-- A numeric-or-boolean leaf, booleans as their Python numeric value. -/
def leafNumberPy : Leaf → Option ℚ
  | .num q => some q
  | .boolean b => some (if b then 1 else 0)
  | _ => none

/-- Extractor following the amended claim: numeric leaves plus boolean
leaves (as 1 / 0), in traversal order. -/
def amendedExtract (r : Raw) : List ℚ :=
  (leaves r).filterMap leafNumberPy

mutual

/-- `find_numbers` agrees with filtering the traversal-ordered leaves
through the Python-semantics numeric test (booleans included). -/
theorem find_numbers_eq_filterMap (r : Raw) :
    find_numbers r = (leaves r).filterMap leafNumberPy := by
  cases r with
  | obj fields => rw [find_numbers, leaves, find_numbersFields_eq_filterMap]
  | arr items => rw [find_numbers, leaves, find_numbersList_eq_filterMap]
  | num q => simp [find_numbers, leaves, leafNumberPy]
  | boolean b => simp [find_numbers, leaves, leafNumberPy]
  | str s => simp [find_numbers, leaves, leafNumberPy]
  | null => simp [find_numbers, leaves, leafNumberPy]

/-- List version of `find_numbers_eq_filterMap`. -/
theorem find_numbersList_eq_filterMap (l : List Raw) :
    find_numbersList l = (leavesList l).filterMap leafNumberPy := by
  cases l with
  | nil => simp [find_numbersList, leavesList]
  | cons x xs =>
    rw [find_numbersList, leavesList, List.filterMap_append,
      find_numbers_eq_filterMap, find_numbersList_eq_filterMap]

/-- Mapping version of `find_numbers_eq_filterMap`. -/
theorem find_numbersFields_eq_filterMap (l : List (String × Raw)) :
    find_numbersFields l = (leavesFields l).filterMap leafNumberPy := by
  cases l with
  | nil => simp [find_numbersFields, leavesFields]
  | cons f fs =>
    cases f with
    | mk k v =>
      rw [find_numbersFields, leavesFields, List.filterMap_append,
        find_numbers_eq_filterMap, find_numbersFields_eq_filterMap]

end

/-- C1 (corrected): `find_numbers` returns exactly the numeric-or-boolean
leaves of the response in traversal order — mapping values in key-iteration
order, sequence elements in order, a string or null scalar contributing
nothing — with every boolean leaf included as its Python numeric value
(`True` extracts as 1, `False` as 0), because `isinstance(obj, (int, float))`
is true for `bool` in Python. -/
theorem find_numbers_includes_booleans_amended (r : Raw) :
    find_numbers r = amendedExtract r := by
  rw [amendedExtract, find_numbers_eq_filterMap]

/-- C1 counterexample: on the boolean leaf `True` the code extracts the
sample `1`, while the claim ("never includes boolean leaves") demands the
empty sequence, as computed by the spec-worded extractor `specExtract`. -/
theorem find_numbers_boolean_counterexample :
    find_numbers (Raw.boolean true) = [1] ∧
      specExtract (Raw.boolean true) = [] ∧
      find_numbers (Raw.boolean true) ≠ specExtract (Raw.boolean true) := by
  refine ⟨?_, ?_, ?_⟩ <;> simp [find_numbers, specExtract, leaves, leafNumber]

/-- Endpoint A of the selector (`avg < 50` band, app.py line 130). -/
def endpointA : String := "https://api.publicapis.org/entries"

/-- Endpoint B of the selector (`50 <= avg < 100` band, app.py line 132). -/
def endpointB : String :=
  "https://api.coingecko.com/api/v3/simple/price?ids=bitcoin&vs_currencies=usd"

/-- Endpoint C of the selector (`avg >= 100` band, app.py line 134). -/
def endpointC : String := "https://api.exchangerate.host/latest"

/-- Embedding of `WorkflowService.select_next_api` (app.py lines 124-134).
`maxDepth` stands for `self.config.MAX_DEPTH`; depths are naturals because
a run starts at 0 and only ever increments. -/
def select_next_api (numbers : List ℚ) (depth : ℕ) (maxDepth : ℕ) :
    Option String :=
  if maxDepth ≤ depth ∨ numbers = [] then none
  else
    let avg_value := numbers.sum / (numbers.length : ℚ)
    if avg_value < 50 then some endpointA
    else if avg_value < 100 then some endpointB
    else some endpointC

/-- The arithmetic mean of the samples, as the spec words it. -/
def mean (l : List ℚ) : ℚ := l.sum / (l.length : ℚ)

/-- If the selector returns an endpoint, the depth is below the bound. -/
theorem select_next_api_some_lt {numbers : List ℚ} {depth maxDepth : ℕ}
    {u : String} (h : select_next_api numbers depth maxDepth = some u) :
    depth < maxDepth := by
  by_contra hn
  rw [select_next_api, if_pos (Or.inl (by omega))] at h
  exact Option.noConfusion h

/-- C2: the selector returns the none-sentinel exactly when the depth bound
is reached or the sample list is empty, and otherwise classifies the mean
into the three bands with the stated `<` / `≥` comparisons (so a mean
exactly at 50 or 100 goes to the upper band). -/
theorem select_next_api_spec (numbers : List ℚ) (depth maxDepth : ℕ) :
    (select_next_api numbers depth maxDepth = none ↔
        maxDepth ≤ depth ∨ numbers = []) ∧
      (depth < maxDepth → numbers ≠ [] →
        ((mean numbers < 50 →
            select_next_api numbers depth maxDepth = some endpointA) ∧
          (50 ≤ mean numbers → mean numbers < 100 →
            select_next_api numbers depth maxDepth = some endpointB) ∧
          (100 ≤ mean numbers →
            select_next_api numbers depth maxDepth = some endpointC))) := by
  constructor
  · constructor
    · intro h
      by_contra hc
      push_neg at hc
      rw [select_next_api, if_neg (by push_neg; exact hc)] at h
      simp only at h
      split at h
      · exact Option.noConfusion h
      · split at h <;> exact Option.noConfusion h
    · intro h
      rw [select_next_api, if_pos h]
  · intro hd hne
    refine ⟨?_, ?_, ?_⟩
    · intro hlt
      rw [select_next_api, if_neg (by push_neg; exact ⟨by omega, hne⟩)]
      simp only [mean] at hlt
      rw [if_pos hlt]
    · intro hge hlt
      rw [select_next_api, if_neg (by push_neg; exact ⟨by omega, hne⟩)]
      simp only [mean] at hge hlt
      rw [if_neg (by simpa using hge), if_pos hlt]
    · intro hge
      rw [select_next_api, if_neg (by push_neg; exact ⟨by omega, hne⟩)]
      simp only [mean] at hge
      rw [if_neg (by simp; linarith), if_neg (by simp; linarith)]

/-- Witness for C2: concrete inputs exercising the none-sentinel case and
each of the three bands, including the boundary mean of exactly 50. -/
theorem select_next_api_spec_witness :
    (select_next_api [10] 3 3 = none) ∧
      (select_next_api [10] 0 3 = some endpointA) ∧
      (select_next_api [50] 0 3 = some endpointB) ∧
      (select_next_api [100, 300] 0 3 = some endpointC) := by
  refine ⟨?_, ?_, ?_, ?_⟩
  · exact (select_next_api_spec [10] 3 3).1.2 (Or.inl (by omega))
  · exact ((select_next_api_spec [10] 0 3).2 (by omega) (by simp)).1
      (by norm_num [mean])
  · exact ((select_next_api_spec [50] 0 3).2 (by omega) (by simp)).2.1
      (by norm_num [mean]) (by norm_num [mean])
  · exact ((select_next_api_spec [100, 300] 0 3).2 (by omega) (by simp)).2.2
      (by norm_num [mean])

/-- A dashboard cell: a number, the `"N/A"` sentinel, or the literal
`"Erreur API"` string written by the fetch-failure handler. -/
inductive CellValue where
  | num (q : ℚ)
  | na
  | apiError
deriving DecidableEq

/-- One entry of the global `dashboard_data` list (the `timestamp` field of
the Python dict carries no decision logic and is omitted). -/
structure Record where
  api : String
  value : CellValue
  status : String
  max_value : CellValue
  min_value : CellValue
  avg_value : CellValue
deriving DecidableEq

/-- One observable external call of the engine: a data-source fetch (with
the engine depth at which it happened), one of the three notification
sinks, or a call to the next-endpoint selector. -/
inductive Event where
  | fetch (api : String) (depth : ℕ)
  | email (v : ℚ)
  | slack (v : ℚ)
  | sheet (v : ℚ)
  | select (numbers : List ℚ) (depth : ℕ)
deriving DecidableEq

/-- Round a rational to the nearest integer, ties to even — the semantics
of Python 3's built-in `round` on an exactly represented value. -/
def roundHalfEven (q : ℚ) : ℤ :=
  if q - ⌊q⌋ < 1 / 2 then ⌊q⌋
  else if 1 / 2 < q - ⌊q⌋ then ⌊q⌋ + 1
  else if ⌊q⌋ % 2 = 0 then ⌊q⌋ else ⌊q⌋ + 1

/-- `round(x, 2)` of Python, on an exact rational. -/
def round2 (q : ℚ) : ℚ := (roundHalfEven (q * 100) : ℚ) / 100

/-- Embedding of one successful-fetch iteration body of
`WorkflowService.recursive_workflow` (app.py lines 145-171): compute the
representative value, metrics and status, fire the three notification
sinks when samples exist, and produce the record appended to
`dashboard_data` together with the notification events, in program order. -/
def workflow_body (threshold : ℚ) (api : String) (data : Raw) :
    Record × List Event :=
  match find_numbers data with
  | [] => (⟨api, .na, "OK", .na, .na, .na⟩, [])
  | v :: rest =>
      (⟨api, .num v, if threshold ≤ v then "ALERTE" else "OK",
          .num (rest.foldl max v), .num (rest.foldl min v),
          .num (round2 ((v :: rest).sum / ((v :: rest).length : ℚ)))⟩,
        [.email v, .slack v, .sheet v])

/-- Folding `max` over a list starting from `v` yields an element of
`v :: l` (the result Python's `max(numbers)` returns). -/
theorem foldl_max_mem (v : ℚ) (l : List ℚ) : l.foldl max v ∈ v :: l := by
  induction l generalizing v with
  | nil => simp
  | cons x xs ih =>
    have h := ih (max v x)
    simp only [List.foldl_cons]
    rcases List.mem_cons.1 h with h1 | h1
    · rcases max_choice v x with hm | hm
      · rw [h1, hm]; exact List.mem_cons_self _ _
      · rw [h1, hm]; exact List.mem_cons_of_mem _ (List.mem_cons_self _ _)
    · exact List.mem_cons_of_mem _ (List.mem_cons_of_mem _ h1)

/-- Folding `max` over a list starting from `v` bounds every element of
`v :: l` from above. -/
theorem foldl_max_ge (v : ℚ) (l : List ℚ) :
    ∀ x ∈ v :: l, x ≤ l.foldl max v := by
  induction l generalizing v with
  | nil => simp
  | cons y ys ih =>
    intro x hx
    simp only [List.foldl_cons]
    have hhead : max v y ≤ ys.foldl max (max v y) :=
      ih (max v y) (max v y) (List.mem_cons_self _ _)
    rcases List.mem_cons.1 hx with h1 | h1
    · exact le_trans (h1 ▸ le_max_left v y) hhead
    · rcases List.mem_cons.1 h1 with h2 | h2
      · exact le_trans (h2 ▸ le_max_right v y) hhead
      · exact ih (max v y) x (List.mem_cons_of_mem _ h2)

/-- Folding `min` over a list starting from `v` yields an element of
`v :: l` (the result Python's `min(numbers)` returns). -/
theorem foldl_min_mem (v : ℚ) (l : List ℚ) : l.foldl min v ∈ v :: l := by
  induction l generalizing v with
  | nil => simp
  | cons x xs ih =>
    have h := ih (min v x)
    simp only [List.foldl_cons]
    rcases List.mem_cons.1 h with h1 | h1
    · rcases min_choice v x with hm | hm
      · rw [h1, hm]; exact List.mem_cons_self _ _
      · rw [h1, hm]; exact List.mem_cons_of_mem _ (List.mem_cons_self _ _)
    · exact List.mem_cons_of_mem _ (List.mem_cons_of_mem _ h1)

/-- Folding `min` over a list starting from `v` bounds every element of
`v :: l` from below. -/
theorem foldl_min_le (v : ℚ) (l : List ℚ) :
    ∀ x ∈ v :: l, l.foldl min v ≤ x := by
  induction l generalizing v with
  | nil => simp
  | cons y ys ih =>
    intro x hx
    simp only [List.foldl_cons]
    have hhead : ys.foldl min (min v y) ≤ min v y :=
      ih (min v y) (min v y) (List.mem_cons_self _ _)
    rcases List.mem_cons.1 hx with h1 | h1
    · exact le_trans hhead (h1 ▸ min_le_left v y)
    · rcases List.mem_cons.1 h1 with h2 | h2
      · exact le_trans hhead (h2 ▸ min_le_right v y)
      · exact ih (min v y) x (List.mem_cons_of_mem _ h2)

/-- C3: in a successful iteration with a non-empty sample list, the
representative value is the first extracted sample, `max_value` and
`min_value` are a greatest and a least sample, `avg_value` is the mean
rounded to two decimal places, the three notification sinks are invoked
with the representative value unconditionally and in that order, and the
status is `"ALERTE"` (the spec's ALERT) exactly when the representative
value reaches the alert threshold, and `"OK"` otherwise. -/
theorem workflow_body_success_spec (threshold : ℚ) (api : String)
    (data : Raw) (v : ℚ) (rest : List ℚ)
    (h : find_numbers data = v :: rest) :
    (workflow_body threshold api data).1.value = CellValue.num v ∧
      (∃ mx, (workflow_body threshold api data).1.max_value =
          CellValue.num mx ∧ mx ∈ find_numbers data ∧
          ∀ x ∈ find_numbers data, x ≤ mx) ∧
      (∃ mn, (workflow_body threshold api data).1.min_value =
          CellValue.num mn ∧ mn ∈ find_numbers data ∧
          ∀ x ∈ find_numbers data, mn ≤ x) ∧
      (workflow_body threshold api data).1.avg_value =
        CellValue.num (round2 (mean (find_numbers data))) ∧
      (workflow_body threshold api data).2 =
        [Event.email v, Event.slack v, Event.sheet v] ∧
      ((workflow_body threshold api data).1.status = "ALERTE" ↔
        threshold ≤ v) ∧
      ((workflow_body threshold api data).1.status = "ALERTE" ∨
        (workflow_body threshold api data).1.status = "OK") := by
  have hb : workflow_body threshold api data =
      (⟨api, .num v, if threshold ≤ v then "ALERTE" else "OK",
          .num (rest.foldl max v), .num (rest.foldl min v),
          .num (round2 ((v :: rest).sum / ((v :: rest).length : ℚ)))⟩,
        [.email v, .slack v, .sheet v]) := by
    rw [workflow_body, h]
  rw [hb]
  refine ⟨rfl, ?_, ?_, ?_, rfl, ?_, ?_⟩
  · refine ⟨rest.foldl max v, rfl, ?_, ?_⟩
    · rw [h]; exact foldl_max_mem v rest
    · intro x hx
      rw [h] at hx
      exact foldl_max_ge v rest x hx
  · refine ⟨rest.foldl min v, rfl, ?_, ?_⟩
    · rw [h]; exact foldl_min_mem v rest
    · intro x hx
      rw [h] at hx
      exact foldl_min_le v rest x hx
  · rw [h, mean]
  · show ((if threshold ≤ v then "ALERTE" else "OK") = "ALERTE") ↔ _
    split <;> simp_all
  · show ((if threshold ≤ v then "ALERTE" else "OK") = "ALERTE") ∨
      ((if threshold ≤ v then "ALERTE" else "OK") = "OK")
    split <;> simp

/-- The spec's concrete scenario payload
`{"a": 10, "b": {"c": 20, "d": 80}}`. -/
def sampleData : Raw :=
  Raw.obj [("a", Raw.num 10),
    ("b", Raw.obj [("c", Raw.num 20), ("d", Raw.num 80)])]

/-- The samples extracted from the scenario payload, in traversal order. -/
theorem sampleData_numbers : find_numbers sampleData = [10, 20, 80] := by
  simp [sampleData, find_numbers, find_numbersFields, find_numbersList]

/-- Witness for C3 at the spec's concrete scenario (threshold 1000):
representative 10, a greatest and a least sample exist, avg is the rounded
mean, all three sinks fire with 10, and the status is OK (not ALERTE). -/
theorem workflow_body_success_witness :
    (workflow_body 1000 endpointA sampleData).1.value = CellValue.num 10 ∧
      (∃ mx, (workflow_body 1000 endpointA sampleData).1.max_value =
          CellValue.num mx ∧ mx ∈ find_numbers sampleData ∧
          ∀ x ∈ find_numbers sampleData, x ≤ mx) ∧
      (∃ mn, (workflow_body 1000 endpointA sampleData).1.min_value =
          CellValue.num mn ∧ mn ∈ find_numbers sampleData ∧
          ∀ x ∈ find_numbers sampleData, mn ≤ x) ∧
      (workflow_body 1000 endpointA sampleData).1.avg_value =
        CellValue.num (round2 (mean (find_numbers sampleData))) ∧
      (workflow_body 1000 endpointA sampleData).2 =
        [Event.email 10, Event.slack 10, Event.sheet 10] ∧
      ((workflow_body 1000 endpointA sampleData).1.status = "ALERTE" ↔
        (1000 : ℚ) ≤ 10) ∧
      ((workflow_body 1000 endpointA sampleData).1.status = "ALERTE" ∨
        (workflow_body 1000 endpointA sampleData).1.status = "OK") :=
  workflow_body_success_spec 1000 endpointA sampleData 10 [20, 80]
    sampleData_numbers

/-- The scenario record in full: max 80, min 10, avg 36.67 (the exact mean
110/3 rounds to 3667/100), status OK.  This checks the spec's concrete
numbers directly against the embedded iteration body. -/
theorem workflow_body_scenario_values :
    workflow_body 1000 endpointA sampleData =
      (⟨endpointA, CellValue.num 10, "OK", CellValue.num 80,
          CellValue.num 10, CellValue.num (3667 / 100)⟩,
        [Event.email 10, Event.slack 10, Event.sheet 10]) := by
  rw [workflow_body, sampleData_numbers]
  norm_num [round2, roundHalfEven]

/-- Embedding of `ApiManager.fetch_data` (app.py lines 49-61).  The oracle
`src` stands for the external HTTP world: `none` is a request exception.
On failure the handler itself appends one API-error record (value
`"Erreur API"`, status `"Erreur"`, all of max/min/avg `"N/A"`) and returns
`None`; on success it returns the decoded body and appends nothing. -/
def fetch_data (src : String → Option Raw) (api : String) :
    Option Raw × List Record :=
  match src api with
  | some d => (some d, [])
  | none => (none, [⟨api, .apiError, "Erreur", .na, .na, .na⟩])

/-- Embedding of `WorkflowService.recursive_workflow` (app.py lines
136-174).  Returns the records appended to `dashboard_data` and the trace
of external calls, in program order.  The source recurses unconditionally
on `select_next_api(numbers, depth+1)` — a `None` next endpoint returns at
once — and the selector only returns an endpoint below `maxDepth`, which
bounds the recursion. -/
def recursive_workflow (src : String → Option Raw) (threshold : ℚ)
    (maxDepth : ℕ) : Option String → ℕ → List Record × List Event
  | none, _ => ([], [])
  | some api, depth =>
    match fetch_data src api with
    | (none, recs) => (recs, [Event.fetch api depth])
    | (some data, recs) =>
      let body := workflow_body threshold api data
      let numbers := find_numbers data
      let rest := recursive_workflow src threshold maxDepth
        (select_next_api numbers (depth + 1) maxDepth) (depth + 1)
      (recs ++ body.1 :: rest.1,
        Event.fetch api depth ::
          (body.2 ++ Event.select numbers (depth + 1) :: rest.2))
termination_by o depth =>
  ((match o with | none => 0 | some _ => 1), maxDepth - depth)
decreasing_by
  rcases h : select_next_api numbers (depth + 1) maxDepth with _ | u
  · exact Prod.Lex.left _ _ (by decide)
  · have hlt : depth + 1 < maxDepth := select_next_api_some_lt h
    exact Prod.Lex.right _ (by omega)

/-- Unfolding: a `None` endpoint ends the run with no record and no call
(app.py lines 137-139). -/
theorem recursive_workflow_none (src : String → Option Raw) (threshold : ℚ)
    (maxDepth : ℕ) (depth : ℕ) :
    recursive_workflow src threshold maxDepth none depth = ([], []) := by
  rw [recursive_workflow]

/-- Unfolding: a failed fetch appends exactly the API-error record written
by `fetch_data` and performs only the fetch call (app.py lines 141-143). -/
theorem recursive_workflow_fetch_fail (src : String → Option Raw)
    (threshold : ℚ) (maxDepth : ℕ) (api : String) (depth : ℕ)
    (h : src api = none) :
    recursive_workflow src threshold maxDepth (some api) depth =
      ([⟨api, .apiError, "Erreur", .na, .na, .na⟩],
        [Event.fetch api depth]) := by
  rw [recursive_workflow]
  simp [fetch_data, h]

/-- Unfolding: a successful fetch runs the iteration body, records, calls
the selector with `depth + 1`, and recurses (app.py lines 145-174). -/
theorem recursive_workflow_fetch_ok (src : String → Option Raw)
    (threshold : ℚ) (maxDepth : ℕ) (api : String) (depth : ℕ) (data : Raw)
    (h : src api = some data) :
    recursive_workflow src threshold maxDepth (some api) depth =
      ((workflow_body threshold api data).1 ::
          (recursive_workflow src threshold maxDepth
            (select_next_api (find_numbers data) (depth + 1) maxDepth)
            (depth + 1)).1,
        Event.fetch api depth ::
          ((workflow_body threshold api data).2 ++
            Event.select (find_numbers data) (depth + 1) ::
              (recursive_workflow src threshold maxDepth
                (select_next_api (find_numbers data) (depth + 1) maxDepth)
                (depth + 1)).2)) := by
  rw [recursive_workflow]
  simp [fetch_data, h]

/-- Recognizer for selector-call events in a trace. -/
def isSelectEvent : Event → Bool
  | .select _ _ => true
  | _ => false

/-- Recognizer for data-source fetch events in a trace. -/
def isFetchEvent : Event → Bool
  | .fetch _ _ => true
  | _ => false

/-- C4: when the data-source fetch fails, the iteration appends exactly one
record, with status `"Erreur"` (the spec's API_ERROR) and all three metrics
`"N/A"`, the run terminates immediately with no further record, and no
selector call (and no notification) happens in that run. -/
theorem fetch_failure_terminates (src : String → Option Raw) (threshold : ℚ)
    (maxDepth : ℕ) (api : String) (depth : ℕ) (h : src api = none) :
    (recursive_workflow src threshold maxDepth (some api) depth).1 =
        [⟨api, .apiError, "Erreur", .na, .na, .na⟩] ∧
      ((recursive_workflow src threshold maxDepth (some api) depth).1.map
          Record.status) = ["Erreur"] ∧
      ((recursive_workflow src threshold maxDepth (some api) depth).1.map
          Record.max_value) = [CellValue.na] ∧
      ((recursive_workflow src threshold maxDepth (some api) depth).1.map
          Record.min_value) = [CellValue.na] ∧
      ((recursive_workflow src threshold maxDepth (some api) depth).1.map
          Record.avg_value) = [CellValue.na] ∧
      (recursive_workflow src threshold maxDepth (some api) depth).2 =
        [Event.fetch api depth] ∧
      ((recursive_workflow src threshold maxDepth
          (some api) depth).2.filter isSelectEvent) = [] := by
  rw [recursive_workflow_fetch_fail src threshold maxDepth api depth h]
  refine ⟨rfl, rfl, rfl, rfl, rfl, rfl, ?_⟩
  simp [isSelectEvent]

/-- Witness for C4: a data source that times out on every URL, at the run's
initial depth 0 with the default recursion bound. -/
theorem fetch_failure_terminates_witness :
    (recursive_workflow (fun _ => none) 1000 5 (some endpointA) 0).1 =
        [⟨endpointA, .apiError, "Erreur", .na, .na, .na⟩] ∧
      ((recursive_workflow (fun _ => none) 1000 5 (some endpointA) 0).1.map
          Record.status) = ["Erreur"] ∧
      ((recursive_workflow (fun _ => none) 1000 5 (some endpointA) 0).1.map
          Record.max_value) = [CellValue.na] ∧
      ((recursive_workflow (fun _ => none) 1000 5 (some endpointA) 0).1.map
          Record.min_value) = [CellValue.na] ∧
      ((recursive_workflow (fun _ => none) 1000 5 (some endpointA) 0).1.map
          Record.avg_value) = [CellValue.na] ∧
      (recursive_workflow (fun _ => none) 1000 5 (some endpointA) 0).2 =
        [Event.fetch endpointA 0] ∧
      ((recursive_workflow (fun _ => none) 1000 5
          (some endpointA) 0).2.filter isSelectEvent) = [] :=
  fetch_failure_terminates (fun _ => none) 1000 5 endpointA 0 rfl

/-- The selector on an empty sample list is always the none-sentinel. -/
theorem select_next_api_nil (depth maxDepth : ℕ) :
    select_next_api [] depth maxDepth = none := by
  rw [select_next_api, if_pos (Or.inr rfl)]

/-- The iteration body on an empty sample list: all-`"N/A"` OK record and
no notification (app.py lines 148-149 and 163-164). -/
theorem workflow_body_empty (threshold : ℚ) (api : String) (data : Raw)
    (h : find_numbers data = []) :
    workflow_body threshold api data =
      (⟨api, .na, "OK", .na, .na, .na⟩, []) := by
  rw [workflow_body, h]

/-- C7: when the fetch succeeds but no sample is extracted, the iteration
still appends one record — representative value, max, min and avg all
`"N/A"`, status `"OK"` — fires no notification sink, the selector is called
and returns the none-sentinel (empty samples), and the run ends with that
single record. -/
theorem empty_samples_terminal (src : String → Option Raw) (threshold : ℚ)
    (maxDepth : ℕ) (api : String) (depth : ℕ) (data : Raw)
    (h1 : src api = some data) (h2 : find_numbers data = []) :
    (recursive_workflow src threshold maxDepth (some api) depth).1 =
        [⟨api, .na, "OK", .na, .na, .na⟩] ∧
      (recursive_workflow src threshold maxDepth (some api) depth).2 =
        [Event.fetch api depth, Event.select [] (depth + 1)] ∧
      select_next_api [] (depth + 1) maxDepth = none := by
  have hsel : select_next_api [] (depth + 1) maxDepth = none :=
    select_next_api_nil (depth + 1) maxDepth
  rw [recursive_workflow_fetch_ok src threshold maxDepth api depth data h1]
  rw [workflow_body_empty threshold api data h2, h2, hsel,
    recursive_workflow_none]
  exact ⟨rfl, rfl, rfl⟩

/-- Witness for C7: a data source answering a pure-string payload (no
numeric leaf anywhere), at depth 0 with the default recursion bound. -/
theorem empty_samples_terminal_witness :
    (recursive_workflow (fun _ => some (Raw.str "no numbers here")) 1000 5
          (some endpointA) 0).1 =
        [⟨endpointA, .na, "OK", .na, .na, .na⟩] ∧
      (recursive_workflow (fun _ => some (Raw.str "no numbers here")) 1000 5
          (some endpointA) 0).2 =
        [Event.fetch endpointA 0, Event.select [] 1] ∧
      select_next_api [] 1 5 = none :=
  empty_samples_terminal (fun _ => some (Raw.str "no numbers here")) 1000 5
    endpointA 0 (Raw.str "no numbers here") rfl (by rw [find_numbers])

/-- Inversion: `fetch_data` reports `None` exactly on a failed fetch, and
the appended record is the API-error record. -/
theorem fetch_data_none_inv {src : String → Option Raw} {api : String}
    {recs : List Record} (h : fetch_data src api = (none, recs)) :
    src api = none ∧
      recs = [⟨api, .apiError, "Erreur", .na, .na, .na⟩] := by
  rcases hs : src api with _ | d
  · rw [fetch_data, hs] at h
    simp only [Prod.mk.injEq] at h
    exact ⟨rfl, h.2.symm⟩
  · rw [fetch_data, hs] at h
    simp at h

/-- Inversion: `fetch_data` reports a body exactly on a successful fetch,
appending nothing. -/
theorem fetch_data_some_inv {src : String → Option Raw} {api : String}
    {data : Raw} {recs : List Record}
    (h : fetch_data src api = (some data, recs)) :
    src api = some data ∧ recs = [] := by
  rcases hs : src api with _ | d
  · rw [fetch_data, hs] at h
    simp at h
  · rw [fetch_data, hs] at h
    simp only [Prod.mk.injEq, Option.some.injEq] at h
    exact ⟨by rw [h.1], h.2.symm⟩

/-- The iteration body never performs a data-source fetch. -/
theorem workflow_body_no_fetch (threshold : ℚ) (api : String) (data : Raw) :
    ((workflow_body threshold api data).2.filter isFetchEvent) = [] := by
  rw [workflow_body]
  cases h : find_numbers data <;> simp [isFetchEvent]

/-- C5: in every (partial) run of the engine, the number of records
appended to the dashboard equals the number of completed data-source
fetches — each failed fetch appends its one record inside the fetch
handler, each successful fetch appends its one record in the iteration,
and no path appends zero or two records for one fetch. -/
theorem records_eq_fetches (src : String → Option Raw) (threshold : ℚ)
    (maxDepth : ℕ) (o : Option String) (depth : ℕ) :
    (recursive_workflow src threshold maxDepth o depth).1.length =
      ((recursive_workflow src threshold maxDepth o depth).2.filter
        isFetchEvent).length := by
  induction o, depth using recursive_workflow.induct src threshold maxDepth with
  | case1 d => simp [recursive_workflow_none]
  | case2 api depth recs hf =>
    obtain ⟨hsrc, hrecs⟩ := fetch_data_none_inv hf
    rw [recursive_workflow_fetch_fail src threshold maxDepth api depth hsrc]
    simp [isFetchEvent]
  | case3 api depth data recs hf numbers ih =>
    obtain ⟨hsrc, hrecs⟩ := fetch_data_some_inv hf
    rw [recursive_workflow_fetch_ok src threshold maxDepth api depth data hsrc]
    have hbody := workflow_body_no_fetch threshold api data
    simp [List.filter_cons, List.filter_append, isFetchEvent, hbody]
    exact ih

/-- The depths at which data-source fetches happen in a trace, in order. -/
def fetchDepths (evs : List Event) : List ℕ :=
  evs.filterMap fun e =>
    match e with
    | .fetch _ d => some d
    | _ => none

/-- A fetch event contributes its depth to `fetchDepths`. -/
theorem fetchDepths_cons_fetch (api : String) (d : ℕ) (l : List Event) :
    fetchDepths (Event.fetch api d :: l) = d :: fetchDepths l := by
  simp [fetchDepths]

/-- A selector event contributes nothing to `fetchDepths`. -/
theorem fetchDepths_cons_select (n : List ℚ) (d : ℕ) (l : List Event) :
    fetchDepths (Event.select n d :: l) = fetchDepths l := by
  simp [fetchDepths]

/-- `fetchDepths` distributes over trace concatenation. -/
theorem fetchDepths_append (l1 l2 : List Event) :
    fetchDepths (l1 ++ l2) = fetchDepths l1 ++ fetchDepths l2 := by
  simp [fetchDepths]

/-- The iteration body performs no fetch, so contributes no fetch depth. -/
theorem workflow_body_fetchDepths (threshold : ℚ) (api : String)
    (data : Raw) : fetchDepths (workflow_body threshold api data).2 = [] := by
  rw [workflow_body]
  cases h : find_numbers data <;> simp [fetchDepths]

/-- Every fetch of a (partial) run started from depth `d` happens at a
depth at least `d`, and is either the initial fetch at `d` itself or a
recursive fetch strictly below `maxDepth`. -/
theorem fetchDepths_bounds (src : String → Option Raw) (threshold : ℚ)
    (maxDepth : ℕ) (o : Option String) (depth : ℕ) :
    ∀ x ∈ fetchDepths (recursive_workflow src threshold maxDepth o depth).2,
      depth ≤ x ∧ (x = depth ∨ x < maxDepth) := by
  induction o, depth using recursive_workflow.induct src threshold maxDepth with
  | case1 d => simp [recursive_workflow_none, fetchDepths]
  | case2 api depth recs hf =>
    obtain ⟨hsrc, hrecs⟩ := fetch_data_none_inv hf
    rw [recursive_workflow_fetch_fail src threshold maxDepth api depth hsrc]
    simp [fetchDepths]
  | case3 api depth data recs hf numbers ih =>
    obtain ⟨hsrc, hrecs⟩ := fetch_data_some_inv hf
    rw [recursive_workflow_fetch_ok src threshold maxDepth api depth data hsrc]
    intro x hx
    rw [fetchDepths_cons_fetch, fetchDepths_append,
      workflow_body_fetchDepths, fetchDepths_cons_select,
      List.nil_append] at hx
    rcases List.mem_cons.1 hx with hx | hx
    · omega
    · rcases hsel : select_next_api (find_numbers data) (depth + 1) maxDepth
        with _ | u
      · rw [hsel, recursive_workflow_none] at hx
        simp [fetchDepths] at hx
      · have hlt : depth + 1 < maxDepth := select_next_api_some_lt hsel
        have hb := ih x hx
        omega

/-- The fetch depths of a run are non-decreasing: the engine only ever
recurses with `depth + 1`. -/
theorem fetchDepths_sorted (src : String → Option Raw) (threshold : ℚ)
    (maxDepth : ℕ) (o : Option String) (depth : ℕ) :
    List.Sorted (· ≤ ·)
      (fetchDepths (recursive_workflow src threshold maxDepth o depth).2) := by
  induction o, depth using recursive_workflow.induct src threshold maxDepth with
  | case1 d => simp [recursive_workflow_none, fetchDepths]
  | case2 api depth recs hf =>
    obtain ⟨hsrc, hrecs⟩ := fetch_data_none_inv hf
    rw [recursive_workflow_fetch_fail src threshold maxDepth api depth hsrc]
    simp [fetchDepths]
  | case3 api depth data recs hf numbers ih =>
    obtain ⟨hsrc, hrecs⟩ := fetch_data_some_inv hf
    rw [recursive_workflow_fetch_ok src threshold maxDepth api depth data hsrc]
    rw [fetchDepths_cons_fetch, fetchDepths_append,
      workflow_body_fetchDepths, fetchDepths_cons_select, List.nil_append]
    rw [List.sorted_cons]
    refine ⟨?_, ih⟩
    intro b hb
    have := (fetchDepths_bounds src threshold maxDepth
      (select_next_api (find_numbers data) (depth + 1) maxDepth)
      (depth + 1) b hb).1
    omega

/-- Record-count bound for a (partial) run: below the depth bound the run
appends at most `maxDepth - depth` records, and at or above the bound at
most one (the fetch at the current depth still happens). -/
theorem records_length_le (src : String → Option Raw) (threshold : ℚ)
    (maxDepth : ℕ) (o : Option String) (depth : ℕ) :
    (depth < maxDepth →
        (recursive_workflow src threshold maxDepth o depth).1.length ≤
          maxDepth - depth) ∧
      (maxDepth ≤ depth →
        (recursive_workflow src threshold maxDepth o depth).1.length ≤ 1) := by
  induction o, depth using recursive_workflow.induct src threshold maxDepth with
  | case1 d => simp [recursive_workflow_none]
  | case2 api depth recs hf =>
    obtain ⟨hsrc, hrecs⟩ := fetch_data_none_inv hf
    rw [recursive_workflow_fetch_fail src threshold maxDepth api depth hsrc]
    constructor <;> intro h <;> simp <;> omega
  | case3 api depth data recs hf numbers ih =>
    obtain ⟨hsrc, hrecs⟩ := fetch_data_some_inv hf
    have hnum : numbers = find_numbers data := rfl
    rw [hnum] at ih
    rw [recursive_workflow_fetch_ok src threshold maxDepth api depth data hsrc]
    rcases hsel : select_next_api (find_numbers data) (depth + 1) maxDepth
      with _ | u
    · rw [recursive_workflow_none]
      constructor <;> intro h <;> simp <;> omega
    · have hlt : depth + 1 < maxDepth := select_next_api_some_lt hsel
      rw [hsel] at ih
      have hrest := ih.1 hlt
      simp only [List.length_cons]
      constructor <;> intro h <;> omega

/-- C6 counterexample: with recursion bound `maxDepth = 0` a run whose
initial fetch succeeds still appends one record (the fetch at depth 0
always happens), so "at most `max_depth` records" fails for
`max_depth = 0`. -/
theorem run_record_bound_counterexample :
    ¬((recursive_workflow (fun _ => some (Raw.num 10)) 1000 0
        (some endpointA) 0).1.length ≤ 0) := by
  rw [recursive_workflow_fetch_ok (fun _ => some (Raw.num 10)) 1000 0
    endpointA 0 (Raw.num 10) rfl]
  simp

/-- C6 (corrected, for a positive recursion bound): in a run started at
depth 0 with `1 ≤ maxDepth`, the fetch depths are non-decreasing and never
exceed `maxDepth`, at most `maxDepth` records are appended, and if the
initial fetch fails the run appends exactly one record.  The run is a total
function of its inputs, so every run terminates. -/
theorem run_depth_bounded_amended (src : String → Option Raw)
    (threshold : ℚ) (maxDepth : ℕ) (api : String) (h : 1 ≤ maxDepth) :
    List.Sorted (· ≤ ·) (fetchDepths
        (recursive_workflow src threshold maxDepth (some api) 0).2) ∧
      (∀ x ∈ fetchDepths
          (recursive_workflow src threshold maxDepth (some api) 0).2,
        x ≤ maxDepth) ∧
      (recursive_workflow src threshold maxDepth (some api) 0).1.length ≤
        maxDepth ∧
      (src api = none →
        (recursive_workflow src threshold maxDepth (some api) 0).1.length
          = 1) := by
  refine ⟨fetchDepths_sorted src threshold maxDepth (some api) 0, ?_, ?_, ?_⟩
  · intro x hx
    have := fetchDepths_bounds src threshold maxDepth (some api) 0 x hx
    omega
  · have := (records_length_le src threshold maxDepth (some api) 0).1
      (by omega)
    omega
  · intro hsrc
    rw [recursive_workflow_fetch_fail src threshold maxDepth api 0 hsrc]
    rfl

/-- Witness for C6 (amended): the always-failing data source at the
default bound 3 — the single API-error record, at fetch depth 0. -/
theorem run_depth_bounded_witness :
    List.Sorted (· ≤ ·) (fetchDepths
        (recursive_workflow (fun _ => none) 1000 3 (some endpointA) 0).2) ∧
      (∀ x ∈ fetchDepths
          (recursive_workflow (fun _ => none) 1000 3 (some endpointA) 0).2,
        x ≤ 3) ∧
      (recursive_workflow (fun _ => none) 1000 3
        (some endpointA) 0).1.length ≤ 3 ∧
      ((fun (_ : String) => (none : Option Raw)) endpointA = none →
        (recursive_workflow (fun _ => none) 1000 3
          (some endpointA) 0).1.length = 1) :=
  run_depth_bounded_amended (fun _ => none) 1000 3 endpointA (by omega)

/-- The kind of a Python exception raised inside a sink body:
`requestError` models `requests.exceptions.RequestException`, `otherError`
any other `Exception`. -/
inductive PyErr where
  | requestError
  | otherError
deriving DecidableEq

/-- Whether `except requests.exceptions.RequestException` catches an
exception of the given kind. -/
def caughtByRequestExc : PyErr → Bool
  | .requestError => true
  | .otherError => false

/-- Whether `except Exception` catches an exception of the given kind
(it catches every modelled kind). -/
def caughtByExc : PyErr → Bool
  | _ => true

/-- The observable outcome of one sink call: whether its transport was
attempted, and the exception (if any) escaping the sink function. -/
structure SinkOutcome where
  attempted : Bool
  raised : Option PyErr
deriving DecidableEq

/-- Embedding of `WorkflowService.send_email` (app.py lines 81-93): the
whole body is wrapped in `try/except Exception`, so whatever the SMTP
transport raises is caught and logged, and nothing escapes. -/
def send_email (transportErr : Option PyErr) : SinkOutcome :=
  match transportErr with
  | none => ⟨true, none⟩
  | some e => ⟨true, if caughtByExc e then none else some e⟩

/-- Embedding of `WorkflowService.send_slack` (app.py lines 95-102): the
body is wrapped in `try/except requests.exceptions.RequestException`, so a
request-kind failure is caught and logged, while any other exception
raised inside the sink escapes. -/
def send_slack (transportErr : Option PyErr) : SinkOutcome :=
  match transportErr with
  | none => ⟨true, none⟩
  | some e => ⟨true, if caughtByRequestExc e then none else some e⟩

/-- Embedding of `WorkflowService.update_google_sheet` (app.py lines
104-110): when the sheet handle is absent (startup authentication failed)
the body is skipped entirely — a no-op, not a failure; otherwise the
append is wrapped in `try/except Exception` and nothing escapes. -/
def update_google_sheet (hasSheet : Bool) (transportErr : Option PyErr) :
    SinkOutcome :=
  if hasSheet then
    match transportErr with
    | none => ⟨true, none⟩
    | some e => ⟨true, if caughtByExc e then none else some e⟩
  else ⟨false, none⟩

/-- The notification fan-out as the engine performs it (app.py lines
156-158): `send_email`, then `send_slack`, then `update_google_sheet`,
sequentially; an exception escaping one sink aborts the sequence and
propagates into the engine.  Returns the list of sinks whose function was
invoked and the exception (if any) reaching the engine. -/
def notifyFanout (hasSheet : Bool)
    (emailErr slackErr sheetErr : Option PyErr) :
    List String × Option PyErr :=
  match (send_email emailErr).raised with
  | some e => (["email"], some e)
  | none =>
    match (send_slack slackErr).raised with
    | some e => (["email", "slack"], some e)
    | none =>
      (["email", "slack", "sheet"],
        (update_google_sheet hasSheet sheetErr).raised)

/-- C8 counterexample: a non-request exception raised inside the chat sink
is not caught by its `except requests.exceptions.RequestException` handler:
it propagates into the engine's control flow and the spreadsheet sink is
never invoked, refuting "a failure raised inside any one sink ... never
propagates ... and the other two sinks are still invoked". -/
theorem sink_isolation_counterexample :
    (notifyFanout true none (some PyErr.otherError) none).2 =
        some PyErr.otherError ∧
      "sheet" ∉ (notifyFanout true none (some PyErr.otherError) none).1 := by
  decide

/-- C8 (corrected): as long as the chat transport fails only with its
request-error kind (any failure of the email and spreadsheet transports is
allowed — their handlers catch every exception), every sink failure is
caught at that sink's boundary, nothing propagates into the engine, and
all three sinks are invoked; moreover when the spreadsheet handle is
absent the spreadsheet sink is a no-op (its transport is never attempted)
rather than a failure. -/
theorem sink_isolation_amended (hasSheet : Bool)
    (emailErr slackErr sheetErr : Option PyErr)
    (h : slackErr ≠ some PyErr.otherError) :
    (notifyFanout hasSheet emailErr slackErr sheetErr).1 =
        ["email", "slack", "sheet"] ∧
      (notifyFanout hasSheet emailErr slackErr sheetErr).2 = none ∧
      (hasSheet = false →
        (update_google_sheet hasSheet sheetErr).attempted = false ∧
          (update_google_sheet hasSheet sheetErr).raised = none) := by
  have hemail : (send_email emailErr).raised = none := by
    rcases emailErr with _ | e1
    · rfl
    · cases e1 <;> rfl
  have hslack : (send_slack slackErr).raised = none := by
    rcases slackErr with _ | e2
    · rfl
    · cases e2
      · rfl
      · exact absurd rfl h
  have hsheet : (update_google_sheet hasSheet sheetErr).raised = none := by
    cases hasSheet
    · rfl
    · rcases sheetErr with _ | e3
      · rfl
      · cases e3 <;> rfl
  refine ⟨?_, ?_, ?_⟩
  · rw [notifyFanout, hemail, hslack]
  · rw [notifyFanout, hemail, hslack]
    exact hsheet
  · intro hfalse
    subst hfalse
    exact ⟨rfl, rfl⟩

/-- Witness for C8 (amended): the email and spreadsheet transports both
raise non-request exceptions, the chat transport raises a request error,
and the sheet handle is absent — everything is contained. -/
theorem sink_isolation_witness :
    (notifyFanout false (some PyErr.otherError) (some PyErr.requestError)
          (some PyErr.otherError)).1 = ["email", "slack", "sheet"] ∧
      (notifyFanout false (some PyErr.otherError) (some PyErr.requestError)
          (some PyErr.otherError)).2 = none ∧
      (false = false →
        (update_google_sheet false (some PyErr.otherError)).attempted =
            false ∧
          (update_google_sheet false (some PyErr.otherError)).raised =
            none) :=
  sink_isolation_amended false (some PyErr.otherError)
    (some PyErr.requestError) (some PyErr.otherError) (by decide)

/-- Embedding of the dashboard read (app.py lines 190-198): both `GET /`
and `GET /api/latest` serve `dashboard_data[-20:][::-1]` — the last
(most recent) up-to-20 records, newest first. -/
def api_latest (buf : List Record) : List Record :=
  (buf.drop (buf.length - 20)).reverse

/-- C9: a dashboard read returns at most 20 records, and they are exactly
the most recent records of the buffer ordered newest first (the first 20
of the reversed, newest-first buffer). -/
theorem api_latest_spec (buf : List Record) :
    (api_latest buf).length ≤ 20 ∧
      api_latest buf = buf.reverse.take 20 := by
  have h
      : api_latest buf = buf.reverse.take 20 := by
    rw [api_latest, show buf.drop (buf.length - 20) = buf.rtake 20 from rfl,
      List.rtake_eq_reverse_take_reverse, List.reverse_reverse]
  refine ⟨?_, h⟩
  rw [h]
  simp

/-- Division with an explicit error branch for a zero denominator: Python
`a / n` raises `ZeroDivisionError` when `n == 0`. -/
def guardDiv (a : ℚ) (n : ℕ) : Option ℚ :=
  if n = 0 then none else some (a / (n : ℚ))

/-- Python `max(l)` with its error branch: `ValueError` on an empty list. -/
def listMax : List ℚ → Option ℚ
  | [] => none
  | v :: rest => some (rest.foldl max v)

/-- Python `min(l)` with its error branch: `ValueError` on an empty list. -/
def listMin : List ℚ → Option ℚ
  | [] => none
  | v :: rest => some (rest.foldl min v)

/-- `select_next_api` with every partial operation routed through its
error branch: `none` means a runtime error (the division
`sum(numbers)/len(numbers)` on an empty list) would have been raised. -/
def selectNextApiChecked (numbers : List ℚ) (depth : ℕ) (maxDepth : ℕ) :
    Option (Option String) :=
  if maxDepth ≤ depth ∨ numbers = [] then some none
  else
    match guardDiv numbers.sum numbers.length with
    | none => none
    | some avg_value =>
        some (if avg_value < 50 then some endpointA
          else if avg_value < 100 then some endpointB
          else some endpointC)

/-- The iteration body with every partial operation routed through its
error branch: the subscript `numbers[0]`, `max(numbers)`, `min(numbers)`
and the division `sum(numbers)/len(numbers)` each yield `none` when their
guard fails. -/
def workflowBodyChecked (threshold : ℚ) (api : String) (data : Raw) :
    Option (Record × List Event) :=
  let numbers := find_numbers data
  if numbers = [] then some (⟨api, .na, "OK", .na, .na, .na⟩, [])
  else
    match numbers.head?, listMax numbers, listMin numbers,
        guardDiv numbers.sum numbers.length with
    | some v, some mx, some mn, some avg =>
        some (⟨api, .num v, if threshold ≤ v then "ALERTE" else "OK",
            .num mx, .num mn, .num (round2 avg)⟩,
          [.email v, .slack v, .sheet v])
    | _, _, _, _ => none

/-- C10: the partial operations of the core are all guarded, so their
error branches are unreachable — the checked selector and the checked
iteration body never report a runtime error, and they agree everywhere
with the embedded (total) `select_next_api` and `workflow_body`. -/
theorem guarded_ops_total :
    (∀ (numbers : List ℚ) (depth maxDepth : ℕ),
        selectNextApiChecked numbers depth maxDepth =
          some (select_next_api numbers depth maxDepth)) ∧
      (∀ (threshold : ℚ) (api : String) (data : Raw),
        workflowBodyChecked threshold api data =
          some (workflow_body threshold api data)) := by
  constructor
  · intro numbers depth maxDepth
    rw [selectNextApiChecked, select_next_api]
    by_cases hc : maxDepth ≤ depth ∨ numbers = []
    · rw [if_pos hc, if_pos hc]
    · rw [if_neg hc, if_neg hc]
      push_neg at hc
      have hne : numbers.length ≠ 0 := by
        intro h0
        exact hc.2 (List.length_eq_zero.1 h0)
      rw [guardDiv, if_neg hne]
  · intro threshold api data
    rw [workflowBodyChecked, workflow_body]
    cases h : find_numbers data with
    | nil => simp
    | cons v rest =>
      have hne : (v :: rest : List ℚ) ≠ [] := by simp
      simp only [hne, if_neg, reduceIte]
      rw [listMax, listMin, guardDiv,
        if_neg (by simp : ((v :: rest : List ℚ).length ≠ 0))]
      rfl
